import Mathlib

/-!
Shallow embedding of the causal-chamber device core: the Si115X sensor
driver (bus transaction layer, command protocol engine, parameter access
sub-protocol, result decoder) and the host-side instruction decoder.

The C++ driver talks to the device through the Wire (I2C) library.  The
embedding abstracts that library as a `Bus` record: an arbitrary stateful
peer offering the two primitives the driver actually uses,
`write_data addr packet` and `read_register addr reg` (one byte).  Every
driver routine is translated as a function over an arbitrary `Bus`, so
theorems can be instantiated both with a free bus (an explicit list of
read responses plus a log of writes) and with a stateful device model.
-/

namespace Si115X

/-- A stateful bus peer: `write_data s addr packet` sends `packet` (first
byte is the register selector) to the peer at `addr`; `read_register s
addr reg` performs the two-phase one-byte read of the driver and returns the
byte as a non-negative integer, or `-1` when no byte was available. -/
structure Bus (σ : Type) where
  write_data : σ → Nat → List Nat → σ
  read_register : σ → Nat → Nat → Int × σ

/-- Modelled from the spec: the device constants come from the datasheet
of the sensor; the header that defines them is not part of the sources, only
the `.cpp` that uses them.  Their concrete values are irrelevant to the
driver logic except that distinct registers are distinct. -/
def DEVICE_ADDRESS : Nat := 0x53

def RESPONSE_0 : Nat := 0x11

def RESPONSE_1 : Nat := 0x10

def COMMAND : Nat := 0x0B

def HOSTIN_0 : Nat := 0x0A

def HOSTOUT_0 : Nat := 0x13

def HOSTOUT_1 : Nat := 0x14

def HOSTOUT_2 : Nat := 0x15

def HOSTOUT_3 : Nat := 0x16

/-- Modelled from the spec: `CMD_CTR` masks the low 4 bits of the status
register (the mod-16 command counter). -/
def CMD_CTR : Nat := 0x0F

/-- Modelled from the spec: `CMD_ERR` is the error flag bit of the status
register, the bit above the counter field. -/
def CMD_ERR : Nat := 0x10

/-- `#define MAX_RETRIES 10000` -/
def MAX_RETRIES : Nat := 10000

/-- C++ conversion of an `int` to `uint8_t` (the driver stores the result
of `read_register` into a `uint8_t`, so the `-1` sentinel becomes 255). -/
def toU8 (v : Int) : Nat := (v % 256).toNat

/-- One iteration of the body of the do-while loop of `Si115X::param_set`:
snapshot the counter from RESPONSE_0, stage the value into HOSTIN_0,
write the location tagged with the 2-bit write opcode (0b10 << 6) to
COMMAND, and re-read RESPONSE_0.  Returns the snapshot `cmmnd_ctr`, the
re-read value `r` and the bus state after the iteration. -/
def param_set_iter {σ : Type} (B : Bus σ) (loc val : Nat) (s : σ) :
    Int × Int × σ :=
  let p1 := B.read_register s DEVICE_ADDRESS RESPONSE_0
  let s1 := B.write_data p1.2 DEVICE_ADDRESS [HOSTIN_0, val % 256]
  let s2 := B.write_data s1 DEVICE_ADDRESS [COMMAND, (Nat.lor loc 0x80) % 256]
  let p2 := B.read_register s2 DEVICE_ADDRESS RESPONSE_0
  (p1.1, p2.1, p2.2)

/-- The do-while loop of `Si115X::param_set`: run the body, then repeat
while `r > cmmnd_ctr`.  The C++ loop is unbounded, so the embedding takes
explicit fuel and returns `none` when the fuel runs out before the loop
exits. -/
def param_set_go {σ : Type} (B : Bus σ) (loc val : Nat) :
    Nat → σ → Option σ
  | 0, _ => none
  | n + 1, s =>
    let t := param_set_iter B loc val s
    if t.1 < t.2.1 then param_set_go B loc val n t.2.2 else some t.2.2

/-- `Si115X::param_set(loc, val)` (fuel-indexed). -/
def param_set {σ : Type} (B : Bus σ) (loc val : Nat) (fuel : Nat) (s : σ) :
    Option σ :=
  param_set_go B loc val fuel s

/-- One iteration of the body of the do-while loop of `Si115X::param_query`:
snapshot the counter, write the location tagged with the 2-bit read
opcode (0b01 << 6) to COMMAND, and re-read RESPONSE_0. -/
def param_query_iter {σ : Type} (B : Bus σ) (loc : Nat) (s : σ) :
    Int × Int × σ :=
  let p1 := B.read_register s DEVICE_ADDRESS RESPONSE_0
  let s1 := B.write_data p1.2 DEVICE_ADDRESS [COMMAND, (Nat.lor loc 0x40) % 256]
  let p2 := B.read_register s1 DEVICE_ADDRESS RESPONSE_0
  (p1.1, p2.1, p2.2)

/-- The do-while loop of `Si115X::param_query`, same exit condition as
`param_set_go`. -/
def param_query_go {σ : Type} (B : Bus σ) (loc : Nat) :
    Nat → σ → Option σ
  | 0, _ => none
  | n + 1, s =>
    let t := param_query_iter B loc s
    if t.1 < t.2.1 then param_query_go B loc n t.2.2 else some t.2.2

/-- `Si115X::param_query(loc)` (fuel-indexed): after the loop exits, read
the result from RESPONSE_1. -/
def param_query {σ : Type} (B : Bus σ) (loc : Nat) (fuel : Nat) (s : σ) :
    Option (Int × σ) :=
  match param_query_go B loc fuel s with
  | none => none
  | some s1 => some (B.read_register s1 DEVICE_ADDRESS RESPONSE_1)

/-- The polling for-loop of `Si115X::send_command` (`for(int i=0; i <
MAX_RETRIES; i++)`): read RESPONSE_0 into a `uint8_t`; on `CMD_ERR`
return `cmd_ctr + 1`; on a counter advance (`cmd_ctr > initial_cmd_ctr`)
or the wraparound case (`initial_cmd_ctr == 15 & cmd_ctr == 0`) return
`0`; after the budget is exhausted return `17`. -/
def send_command_loop {σ : Type} (B : Bus σ) (initial_cmd_ctr : Nat) :
    Nat → σ → Int × σ
  | 0, s => (17, s)
  | n + 1, s =>
    let p := B.read_register s DEVICE_ADDRESS RESPONSE_0
    let response := toU8 p.1
    let cmd_ctr := response &&& CMD_CTR
    if response &&& CMD_ERR ≠ 0 then ((cmd_ctr : Int) + 1, p.2)
    else if initial_cmd_ctr < cmd_ctr ∨ (initial_cmd_ctr = 15 ∧ cmd_ctr = 0) then
      (0, p.2)
    else send_command_loop B initial_cmd_ctr n p.2

/-- `Si115X::send_command(code, force)`: read RESPONSE_0 into a
`uint8_t`; if `CMD_ERR` is set and `force` is false return
`-(initial_cmd_ctr + 1)` without writing anything; otherwise write the
command byte to COMMAND and poll via `send_command_loop`. -/
def send_command {σ : Type} (B : Bus σ) (code : Nat) (force : Bool) (s : σ) :
    Int × σ :=
  let p := B.read_register s DEVICE_ADDRESS RESPONSE_0
  let initial_read := toU8 p.1
  let initial_cmd_ctr := initial_read &&& CMD_CTR
  if initial_read &&& CMD_ERR ≠ 0 ∧ force = false then
    (-((initial_cmd_ctr : Int) + 1), p.2)
  else
    let s1 := B.write_data p.2 DEVICE_ADDRESS [COMMAND, code % 256]
    send_command_loop B initial_cmd_ctr MAX_RETRIES s1

/-- Modelled from the spec: the `LightReading` struct (its header is not
among the sources) — a success flag `ok` and the two 16-bit channels,
infrared and visible.  The channel fields default to 0; the failure
branch of `read_output` leaves them untouched. -/
structure LightReading where
  ok : Int
  ir : Int
  vis : Int
  deriving DecidableEq, Repr

/-- `Si115X::read_output()`: read HOSTOUT_0..HOSTOUT_3; if any read is
negative mark the reading failed (`ok = -1`), else mark success and
assemble each channel as `high_byte * 256 + low_byte`. -/
def read_output {σ : Type} (B : Bus σ) (s : σ) : LightReading × σ :=
  let p0 := B.read_register s DEVICE_ADDRESS HOSTOUT_0
  let p1 := B.read_register p0.2 DEVICE_ADDRESS HOSTOUT_1
  let p2 := B.read_register p1.2 DEVICE_ADDRESS HOSTOUT_2
  let p3 := B.read_register p2.2 DEVICE_ADDRESS HOSTOUT_3
  if p0.1 < 0 ∨ p1.1 < 0 ∨ p2.1 < 0 ∨ p3.1 < 0 then
    ({ ok := -1, ir := 0, vis := 0 }, p3.2)
  else
    ({ ok := 0, ir := p0.1 * 256 + p1.1, vis := p2.1 * 256 + p3.1 }, p3.2)

/-- The body of `Si115X::read_register` at the wire level: `resp` is the
outcome of `Wire.requestFrom` / `Wire.available` — the received byte when
one is available, `none` otherwise.  `val` starts at `-1` and is only
overwritten when a byte is available. -/
def read_register_wire : Option Nat → Int
  | some b => (b : Int)
  | none => -1

/-- The free bus: the state is the list of pending `read_register`
responses (an exhausted list responds with the `-1` sentinel, a bus with
no peer) together with a log of every `write_data` packet issued. -/
def traceBus : Bus (List Int × List (Nat × List Nat)) where
  write_data := fun s addr packet => (s.1, s.2 ++ [(addr, packet)])
  read_register := fun s _ _ => (s.1.headD (-1), (s.1.tail, s.2))

/-- Modelled from the spec: a device model that stores staged parameter
writes in its parameter table.  RESPONSE_0 reads return the mod-16
command counter; a write to HOSTIN_0 stages a byte; a write to COMMAND
decodes the 2-bit opcode tag (high two bits): `0b10` commits the staged
byte into the parameter table at the low-6-bit location, `0b01` copies
the parameter at that location into RESPONSE_1; each processed command
increments the counter mod 16. -/
structure DeviceState where
  counter : Nat
  hostin0 : Nat
  response1 : Nat
  params : Nat → Nat

/-- Device reaction to a `write_data` packet (register selector followed
by one data byte). -/
def device_write (s : DeviceState) (packet : List Nat) : DeviceState :=
  match packet with
  | [r, v] =>
    if r = HOSTIN_0 then { s with hostin0 := v % 256 }
    else if r = COMMAND then
      if v / 64 = 2 then
        { s with
          params := fun i => if i = v % 64 then s.hostin0 else s.params i,
          counter := (s.counter + 1) % 16 }
      else if v / 64 = 1 then
        { s with response1 := s.params (v % 64), counter := (s.counter + 1) % 16 }
      else s
    else s
  | _ => s

/-- Device reaction to a one-byte register read. -/
def device_read (s : DeviceState) (reg : Nat) : Int × DeviceState :=
  if reg = RESPONSE_0 then ((s.counter : Int), s)
  else if reg = RESPONSE_1 then ((s.response1 : Int), s)
  else (0, s)

/-- The device model packaged as a bus. -/
def deviceBus : Bus DeviceState where
  write_data := fun s _ packet => device_write s packet
  read_register := fun s _ reg => device_read s reg

/-- One step of the polling loop over the free bus. -/
theorem send_command_loop_step (ictr n : Nat) (v : Int) (rest : List Int)
    (log : List (Nat × List Nat)) :
    send_command_loop traceBus ictr (n + 1) (v :: rest, log)
      = if toU8 v &&& CMD_ERR ≠ 0 then
          (((toU8 v &&& CMD_CTR : Nat) : Int) + 1, (rest, log))
        else if ictr < toU8 v &&& CMD_CTR
            ∨ (ictr = 15 ∧ toU8 v &&& CMD_CTR = 0) then (0, (rest, log))
        else send_command_loop traceBus ictr n (rest, log) :=
  rfl

/-- Unfolding of `send_command` over the free bus when a first status
byte is pending. -/
theorem send_command_unfold (code : Nat) (force : Bool) (v : Int)
    (rest : List Int) (log : List (Nat × List Nat)) :
    send_command traceBus code force (v :: rest, log)
      = if toU8 v &&& CMD_ERR ≠ 0 ∧ force = false then
          (-(((toU8 v &&& CMD_CTR : Nat) : Int) + 1), (rest, log))
        else send_command_loop traceBus (toU8 v &&& CMD_CTR) MAX_RETRIES
          (rest, log ++ [(DEVICE_ADDRESS, [COMMAND, code % 256])]) :=
  rfl

/-- Draining the polling loop: a block of status responses that show
neither the error flag nor a counter advance (nor the 15-to-0 wraparound)
is consumed one poll per response, leaving the loop on the remaining
stream with the budget reduced accordingly. -/
theorem send_command_loop_drain (ictr : Nat) (l : List Int) :
    ∀ (n : Nat) (rest : List Int) (log : List (Nat × List Nat)),
      l.length ≤ n →
      (∀ v ∈ l, toU8 v &&& CMD_ERR = 0
        ∧ ¬(ictr < toU8 v &&& CMD_CTR ∨ (ictr = 15 ∧ toU8 v &&& CMD_CTR = 0))) →
      send_command_loop traceBus ictr n (l ++ rest, log)
        = send_command_loop traceBus ictr (n - l.length) (rest, log) := by
  induction l with
  | nil => intro n rest log _ _; simp
  | cons v l ih =>
    intro n rest log hlen hall
    cases n with
    | zero => simp at hlen
    | succ n =>
      have hv := hall v (List.mem_cons_self v l)
      have hne : ¬(toU8 v &&& CMD_ERR ≠ 0) := by simp [hv.1]
      rw [List.cons_append, send_command_loop_step, if_neg hne, if_neg hv.2]
      have h1 : l.length ≤ n := by
        simp only [List.length_cons] at hlen
        omega
      rw [ih n rest log h1 (fun u hu => hall u (List.mem_cons_of_mem v hu))]
      congr 1
      simp only [List.length_cons]
      omega

/-- C5: when the device never reports an error and never advances the
counter (wraparound included), `send_command` polls the status register
exactly MAX_RETRIES (10000) times — consuming exactly that many status
responses, no fewer — and then returns the timeout sentinel 17. -/
theorem send_command_timeout (code : Nat) (force : Bool) (v : Int)
    (polls rest : List Int) (log : List (Nat × List Nat))
    (hverr : toU8 v &&& CMD_ERR = 0)
    (hlen : polls.length = MAX_RETRIES)
    (hall : ∀ w ∈ polls, toU8 w &&& CMD_ERR = 0
      ∧ ¬(toU8 v &&& CMD_CTR < toU8 w &&& CMD_CTR
          ∨ (toU8 v &&& CMD_CTR = 15 ∧ toU8 w &&& CMD_CTR = 0))) :
    send_command traceBus code force (v :: (polls ++ rest), log)
      = (17, (rest, log ++ [(DEVICE_ADDRESS, [COMMAND, code % 256])])) := by
  rw [send_command_unfold, if_neg (by simp [hverr])]
  rw [send_command_loop_drain (toU8 v &&& CMD_CTR) polls MAX_RETRIES rest _
    (le_of_eq hlen) hall]
  rw [hlen]
  simp only [Nat.sub_self]
  rfl

/-- C5 witness: a stream of 10000 all-zero status polls after a zero
initial read yields exactly the timeout sentinel with the full stream
consumed. -/
theorem send_command_timeout_witness :
    send_command traceBus 0 false
        ((0 : Int) :: (List.replicate 10000 (0 : Int) ++ []), [])
      = (17, ([], [(83, [11, 0])])) := by
  have h := send_command_timeout 0 false 0 (List.replicate 10000 (0 : Int)) [] []
    (by decide) (by rw [List.length_replicate, MAX_RETRIES])
    (by
      intro w hw
      rw [List.eq_of_mem_replicate hw]
      decide)
  exact h.trans (by decide)

/-- C4: in a polling run whose pre-command counter is 15, where earlier
polls show neither an error nor a counter change and a later poll (still
within the retry budget) shows the error flag clear and counter 0,
`send_command` treats the 15-to-0 wraparound as the counter having
advanced and returns 0, the success result. -/
theorem send_command_wraparound (code : Nat) (force : Bool) (v w : Int)
    (l rest : List Int) (log : List (Nat × List Nat))
    (hinit_ctr : toU8 v &&& CMD_CTR = 15)
    (hinit_err : toU8 v &&& CMD_ERR = 0)
    (hl : ∀ u ∈ l, toU8 u &&& CMD_ERR = 0
      ∧ ¬(15 < toU8 u &&& CMD_CTR ∨ (15 = 15 ∧ toU8 u &&& CMD_CTR = 0)))
    (hllen : l.length < MAX_RETRIES)
    (hwerr : toU8 w &&& CMD_ERR = 0)
    (hwctr : toU8 w &&& CMD_CTR = 0) :
    send_command traceBus code force (v :: (l ++ w :: rest), log)
      = (0, (rest, log ++ [(DEVICE_ADDRESS, [COMMAND, code % 256])])) := by
  rw [send_command_unfold, if_neg (by simp [hinit_err]), hinit_ctr]
  rw [send_command_loop_drain 15 l MAX_RETRIES (w :: rest) _ (le_of_lt hllen) hl]
  obtain ⟨m, hm⟩ : ∃ m, MAX_RETRIES - l.length = m + 1 :=
    ⟨MAX_RETRIES - l.length - 1, by omega⟩
  rw [hm, send_command_loop_step, if_neg (by simp [hwerr]),
    if_pos (Or.inr ⟨rfl, hwctr⟩)]

/-- C4 witness: initial status byte 15 (counter 15, no error) followed by
a 0 poll returns success. -/
theorem send_command_wraparound_witness :
    send_command traceBus 0 false ((15 : Int) :: ([] ++ (0 : Int) :: []), [])
      = (0, ([], [(83, [11, 0])])) := by
  have h := send_command_wraparound 0 false 15 0 [] [] []
    (by decide) (by decide) (by intro u hu; simp at hu) (by decide)
    (by decide) (by decide)
  exact h.trans (by decide)

/-- C6: if, during the polling run after the command byte has been
written, a status read shows the error flag set, `send_command`
immediately returns `cmd_ctr + 1` for the counter field of that read — a
strictly positive integer, distinguishable by sign from the negative
pre-existing-error codes and from success 0. -/
theorem send_command_inflight_error (code : Nat) (force : Bool) (v w : Int)
    (l rest : List Int) (log : List (Nat × List Nat))
    (hinit_err : toU8 v &&& CMD_ERR = 0)
    (hl : ∀ u ∈ l, toU8 u &&& CMD_ERR = 0
      ∧ ¬(toU8 v &&& CMD_CTR < toU8 u &&& CMD_CTR
          ∨ (toU8 v &&& CMD_CTR = 15 ∧ toU8 u &&& CMD_CTR = 0)))
    (hllen : l.length < MAX_RETRIES)
    (hwerr : toU8 w &&& CMD_ERR ≠ 0) :
    send_command traceBus code force (v :: (l ++ w :: rest), log)
      = (((toU8 w &&& CMD_CTR : Nat) : Int) + 1,
         (rest, log ++ [(DEVICE_ADDRESS, [COMMAND, code % 256])]))
    ∧ 0 < (send_command traceBus code force (v :: (l ++ w :: rest), log)).1 := by
  have e : send_command traceBus code force (v :: (l ++ w :: rest), log)
      = (((toU8 w &&& CMD_CTR : Nat) : Int) + 1,
         (rest, log ++ [(DEVICE_ADDRESS, [COMMAND, code % 256])])) := by
    rw [send_command_unfold, if_neg (by simp [hinit_err])]
    rw [send_command_loop_drain (toU8 v &&& CMD_CTR) l MAX_RETRIES (w :: rest) _
      (le_of_lt hllen) hl]
    obtain ⟨m, hm⟩ : ∃ m, MAX_RETRIES - l.length = m + 1 :=
      ⟨MAX_RETRIES - l.length - 1, by omega⟩
    rw [hm, send_command_loop_step, if_pos hwerr]
  refine ⟨e, ?_⟩
  rw [e]
  omega

/-- C6 witness: a clean initial read followed by a poll showing status
byte 31 (error flag set, counter 15) returns 16, a positive code. -/
theorem send_command_inflight_error_witness :
    send_command traceBus 0 false ((0 : Int) :: ([] ++ (31 : Int) :: []), [])
      = (16, ([], [(83, [11, 0])]))
    ∧ 0 < (send_command traceBus 0 false
        ((0 : Int) :: ([] ++ (31 : Int) :: []), [])).1 := by
  have h := send_command_inflight_error 0 false 0 31 [] [] []
    (by decide) (by intro u hu; simp at hu) (by decide) (by decide)
  exact ⟨h.1.trans (by decide), h.2⟩

end Si115X

namespace Utils

/-- The instruction kinds, from the `instruction_type` enum of the
utility header: set, measure, reset, unknown. -/
inductive instruction_type where
  | SET : instruction_type
  | MSR : instruction_type
  | RST : instruction_type
  | UNK : instruction_type
  deriving DecidableEq, Repr

/-- The `Instruction` struct of the utility header: a kind, an opaque
target string and two numeric parameters.  The header declares the
parameters as `float`; the decoder parameter values in the contract
of the spec are small integers, embedded here as `Int`. -/
structure Instruction where
  type : instruction_type
  target : String
  p1 : Int
  p2 : Int
  deriving DecidableEq, Repr

/-- Split a character list on runs of spaces, dropping empty fields
(whitespace-delimited fields per the host text format). -/
def splitWsAux : List Char → List Char → List (List Char)
  | [], acc => if acc = [] then [] else [acc.reverse]
  | c :: cs, acc =>
    if c = ' ' then
      if acc = [] then splitWsAux cs [] else acc.reverse :: splitWsAux cs []
    else splitWsAux cs (c :: acc)

/-- Tokenize a line into whitespace-delimited fields. -/
def splitWs (cs : List Char) : List (List Char) := splitWsAux cs []

/-- Parse a run of decimal digits (at least one, nothing else). -/
def parseNatAux : List Char → Nat → Option Nat
  | [], acc => some acc
  | c :: cs, acc =>
    if c.isDigit then parseNatAux cs (acc * 10 + (c.toNat - '0'.toNat))
    else none

/-- Parse an optionally-signed decimal integer; `none` on any malformed
field. -/
def parseInt : List Char → Option Int
  | [] => none
  | '-' :: rest =>
    if rest = [] then none else (parseNatAux rest 0).map fun n => -(n : Int)
  | c :: cs => (parseNatAux (c :: cs) 0).map fun n => (n : Int)

/-- Map a verb token to its instruction kind (case-sensitively). -/
def verbOf (t : List Char) : instruction_type :=
  if t = "SET".toList then instruction_type.SET
  else if t = "MSR".toList then instruction_type.MSR
  else if t = "RST".toList then instruction_type.RST
  else instruction_type.UNK

/-- Modelled from the spec: `decode_instruction` is declared in the
utility header but its implementation is not among the sources.  Grammar
over one line: `verb target [p1] [p2]`, whitespace-delimited; an unknown
verb, a missing target, extra fields, or a malformed numeric field yield
kind `UNK` with the raw text preserved in `target`; absent numeric
fields default to 0. -/
def decode_instruction (s : String) : Instruction :=
  match splitWs s.toList with
  | verb :: target :: rest =>
    if verbOf verb = instruction_type.UNK then
      { type := instruction_type.UNK, target := s, p1 := 0, p2 := 0 }
    else
      match rest with
      | [] => { type := verbOf verb, target := String.mk target, p1 := 0, p2 := 0 }
      | [a] =>
        match parseInt a with
        | some v => { type := verbOf verb, target := String.mk target, p1 := v, p2 := 0 }
        | none => { type := instruction_type.UNK, target := s, p1 := 0, p2 := 0 }
      | [a, b] =>
        match parseInt a, parseInt b with
        | some v, some w =>
          { type := verbOf verb, target := String.mk target, p1 := v, p2 := w }
        | _, _ => { type := instruction_type.UNK, target := s, p1 := 0, p2 := 0 }
      | _ => { type := instruction_type.UNK, target := s, p1 := 0, p2 := 0 }
  | _ => { type := instruction_type.UNK, target := s, p1 := 0, p2 := 0 }

end Utils

namespace Si115X

/-- Reduction of `read_output` over the free bus: the four reads consume
the first four pending responses. -/
theorem read_output_traceBus (d0 d1 d2 d3 : Int) (rest : List Int)
    (log : List (Nat × List Nat)) :
    read_output traceBus (d0 :: d1 :: d2 :: d3 :: rest, log)
      = if d0 < 0 ∨ d1 < 0 ∨ d2 < 0 ∨ d3 < 0 then
          ({ ok := -1, ir := 0, vis := 0 }, (rest, log))
        else
          ({ ok := 0, ir := d0 * 256 + d1, vis := d2 * 256 + d3 }, (rest, log)) :=
  rfl

/-- C1: the claim states that the do-while loop of `param_set` repeats
exactly when the post-commit counter read is not strictly greater than
the snapshot and terminates only on a strict increase.  The code has the
comparison inverted: on the response stream `[0, 0]` (counter unchanged,
no increase reported) the loop exits after a single iteration, and on
`[0, 1]` (counter strictly increased) it repeats instead of
terminating. -/
theorem param_set_loop_exit_inverted :
    param_set traceBus 5 7 1 ([0, 0], [])
      = some ([], [(DEVICE_ADDRESS, [HOSTIN_0, 7]), (DEVICE_ADDRESS, [COMMAND, 133])])
    ∧ param_set traceBus 5 7 1 ([0, 1], []) = none := by
  constructor <;> rfl

/-- Shared reduction: with the error flag visible on the first status
read and `force = false`, `send_command` aborts after that single read,
performing no write. -/
theorem send_command_abort {σ : Type} (B : Bus σ) (s : σ) (code : Nat)
    (h : toU8 (B.read_register s DEVICE_ADDRESS RESPONSE_0).1 &&& CMD_ERR ≠ 0) :
    send_command B code false s
      = (-(((toU8 (B.read_register s DEVICE_ADDRESS RESPONSE_0).1 &&& CMD_CTR : Nat) : Int) + 1),
         (B.read_register s DEVICE_ADDRESS RESPONSE_0).2) := by
  unfold send_command
  rw [if_pos ⟨h, rfl⟩]

/-- C3: over any bus, when the first status read shows `CMD_ERR` set and
`force` is false, `send_command` returns `-(initial_cmd_ctr + 1)` — a
strictly negative integer — and leaves the bus in the state reached by
that single read, so no write to the command register is performed. -/
theorem send_command_preexisting_error {σ : Type} (B : Bus σ) (s : σ) (code : Nat)
    (h : toU8 (B.read_register s DEVICE_ADDRESS RESPONSE_0).1 &&& CMD_ERR ≠ 0) :
    send_command B code false s
      = (-(((toU8 (B.read_register s DEVICE_ADDRESS RESPONSE_0).1 &&& CMD_CTR : Nat) : Int) + 1),
         (B.read_register s DEVICE_ADDRESS RESPONSE_0).2)
    ∧ (send_command B code false s).1 < 0 := by
  have e := send_command_abort B s code h
  refine ⟨e, ?_⟩
  rw [e]
  omega

/-- C3 witness: with the free bus answering `0x1F` (error flag set,
counter 15), `send_command` returns `-16` and the write log stays
empty. -/
theorem send_command_preexisting_error_witness :
    send_command traceBus 0 false ([31], []) = (-16, ([], []))
    ∧ (send_command traceBus 0 false ([31], [])).1 < 0 := by
  have h := send_command_preexisting_error traceBus ([31], []) 0 (by decide)
  exact ⟨h.1.trans (by decide), h.2⟩

/-- C9: a failed initial status read returns the `-1` sentinel, which the
`uint8_t` conversion turns into `0xFF`: error flag set, counter field 15.
With `force = false`, `send_command` therefore returns `-16`, exactly the
result produced by a genuine pre-existing device error with counter 15
(first read `0x1F`), so the two cases are indistinguishable at the
return interface. -/
theorem send_command_bus_failure_aliases_error (code : Nat) (rest : List Int)
    (log : List (Nat × List Nat)) :
    send_command traceBus code false ((-1) :: rest, log) = (-16, (rest, log))
    ∧ send_command traceBus code false ((31 : Int) :: rest, log) = (-16, (rest, log)) := by
  have h1 : toU8 ((traceBus.read_register ((-1) :: rest, log)
      DEVICE_ADDRESS RESPONSE_0).1) &&& CMD_ERR ≠ 0 := by
    change toU8 (-1) &&& CMD_ERR ≠ 0
    decide
  have h2 : toU8 ((traceBus.read_register ((31 : Int) :: rest, log)
      DEVICE_ADDRESS RESPONSE_0).1) &&& CMD_ERR ≠ 0 := by
    change toU8 31 &&& CMD_ERR ≠ 0
    decide
  have e1 : toU8 ((traceBus.read_register ((-1) :: rest, log)
      DEVICE_ADDRESS RESPONSE_0).1) &&& CMD_CTR = 15 := by
    change toU8 (-1) &&& CMD_CTR = 15
    decide
  have e2 : toU8 ((traceBus.read_register ((31 : Int) :: rest, log)
      DEVICE_ADDRESS RESPONSE_0).1) &&& CMD_CTR = 15 := by
    change toU8 31 &&& CMD_CTR = 15
    decide
  constructor
  · rw [send_command_abort traceBus ((-1) :: rest, log) code h1, e1]
    norm_num [traceBus]
  · rw [send_command_abort traceBus ((31 : Int) :: rest, log) code h2, e2]
    norm_num [traceBus]

/-- C8: the wire-level single-byte read returns the received byte (a
non-negative integer) when one is available, returns `-1` when none is
available, and `-1` is the only negative value it can produce. -/
theorem read_register_wire_spec :
    (∀ b : Nat, read_register_wire (some b) = (b : Int)
        ∧ 0 ≤ read_register_wire (some b))
    ∧ read_register_wire none = -1
    ∧ ∀ resp : Option Nat,
        read_register_wire resp = -1 ∨ 0 ≤ read_register_wire resp := by
  refine ⟨fun b => ⟨rfl, ?_⟩, rfl, fun resp => ?_⟩
  · change (0 : Int) ≤ (b : Int)
    exact_mod_cast Nat.zero_le b
  · cases resp with
    | none => exact Or.inl rfl
    | some b =>
      refine Or.inr ?_
      change (0 : Int) ≤ (b : Int)
      exact_mod_cast Nat.zero_le b

/-- C7: over the free bus delivering the four bytes `d0..d3` (each either
the `-1` sentinel or a byte value), `read_output` marks the reading
failed with both channels left at their defaults when any read returned
`-1`, and otherwise marks success with `ir = d0 * 256 + d1` and
`vis = d2 * 256 + d3`. -/
theorem read_output_partial_failure (d0 d1 d2 d3 : Int) (rest : List Int)
    (log : List (Nat × List Nat))
    (h0 : d0 = -1 ∨ 0 ≤ d0 ∧ d0 < 256) (h1 : d1 = -1 ∨ 0 ≤ d1 ∧ d1 < 256)
    (h2 : d2 = -1 ∨ 0 ≤ d2 ∧ d2 < 256) (h3 : d3 = -1 ∨ 0 ≤ d3 ∧ d3 < 256) :
    ((d0 = -1 ∨ d1 = -1 ∨ d2 = -1 ∨ d3 = -1) →
      (read_output traceBus (d0 :: d1 :: d2 :: d3 :: rest, log)).1
        = { ok := -1, ir := 0, vis := 0 })
    ∧ ((d0 ≠ -1 ∧ d1 ≠ -1 ∧ d2 ≠ -1 ∧ d3 ≠ -1) →
      (read_output traceBus (d0 :: d1 :: d2 :: d3 :: rest, log)).1
        = { ok := 0, ir := d0 * 256 + d1, vis := d2 * 256 + d3 }) := by
  rw [read_output_traceBus]
  constructor
  · intro hany
    have hc : d0 < 0 ∨ d1 < 0 ∨ d2 < 0 ∨ d3 < 0 := by omega
    rw [if_pos hc]
  · intro hall
    have hc : ¬(d0 < 0 ∨ d1 < 0 ∨ d2 < 0 ∨ d3 < 0) := by omega
    rw [if_neg hc]

/-- C7 witness: a third-byte bus failure yields the failed reading with
default channels; four good bytes yield the assembled channels. -/
theorem read_output_partial_failure_witness :
    (read_output traceBus ([1, 2, -1, 4], [])).1 = { ok := -1, ir := 0, vis := 0 }
    ∧ (read_output traceBus ([5, 6, 7, 8], [])).1 = { ok := 0, ir := 1286, vis := 1800 } := by
  refine ⟨(read_output_partial_failure 1 2 (-1) 4 [] []
    (by omega) (by omega) (by omega) (by omega)).1 (by omega), ?_⟩
  have h := (read_output_partial_failure 5 6 7 8 [] []
    (by omega) (by omega) (by omega) (by omega)).2 (by omega)
  exact h.trans (by decide)

/-- ORing a valid parameter location with the write opcode tag sets bit
7: as a byte it is `loc + 128`. -/
theorem lor_write_tag : ∀ loc, loc < 64 → Nat.lor loc 128 % 256 = loc + 128 := by
  decide

/-- ORing a valid parameter location with the read opcode tag sets bit
6: as a byte it is `loc + 64`. -/
theorem lor_read_tag : ∀ loc, loc < 64 → Nat.lor loc 64 % 256 = loc + 64 := by
  decide

/-- One `param_set` iteration against the device model: the snapshot is
the current counter, the re-read is the counter incremented mod 16, and
the device has staged and committed the value into the parameter
table. -/
theorem param_set_iter_device (loc val : Nat) (hloc : loc < 64)
    (s : DeviceState) :
    param_set_iter deviceBus loc val s
      = ((s.counter : Int), (((s.counter + 1) % 16 : Nat) : Int),
         { counter := (s.counter + 1) % 16, hostin0 := val % 256,
           response1 := s.response1,
           params := fun i => if i = loc then val % 256 else s.params i }) := by
  have h1 : Nat.lor loc 128 % 256 = loc + 128 := lor_write_tag loc hloc
  have h2 : (loc + 128) / 64 = 2 := by omega
  have h3 : (loc + 128) % 64 = loc := by omega
  simp [param_set_iter, deviceBus, device_write, device_read, h1, h2, h3,
    RESPONSE_0, HOSTIN_0, COMMAND]

/-- One `param_query` iteration against the device model: the re-read is
the counter incremented mod 16 and the device has copied the requested
parameter into RESPONSE_1; the parameter table is untouched. -/
theorem param_query_iter_device (loc : Nat) (hloc : loc < 64)
    (s : DeviceState) :
    param_query_iter deviceBus loc s
      = ((s.counter : Int), (((s.counter + 1) % 16 : Nat) : Int),
         { counter := (s.counter + 1) % 16, hostin0 := s.hostin0,
           response1 := s.params loc, params := s.params }) := by
  have h1 : Nat.lor loc 64 % 256 = loc + 64 := lor_read_tag loc hloc
  have h2 : (loc + 64) / 64 = 1 := by omega
  have h3 : (loc + 64) % 64 = loc := by omega
  simp [param_query_iter, deviceBus, device_write, device_read, h1, h2, h3,
    RESPONSE_0, HOSTIN_0, COMMAND]

/-- The (inverted) `param_set` loop still terminates against the device
model: each committed iteration increments the counter, so the loop
repeats until the counter wraps from 15 to 0 and then exits with the
value committed in the parameter table. -/
theorem param_set_go_device (loc val : Nat) (hloc : loc < 64) :
    ∀ (n : Nat) (s : DeviceState), s.counter < 16 → 16 - s.counter ≤ n →
      ∃ s1, param_set_go deviceBus loc val n s = some s1
        ∧ s1.counter = 0 ∧ s1.params loc = val % 256 := by
  intro n
  induction n with
  | zero => intro s h1 h2; omega
  | succ n ih =>
    intro s h1 h2
    simp only [param_set_go, param_set_iter_device loc val hloc s]
    by_cases hc : s.counter = 15
    · rw [hc]
      norm_num
    · have hlt : s.counter + 1 < 16 := by omega
      have hmod : (s.counter + 1) % 16 = s.counter + 1 := Nat.mod_eq_of_lt hlt
      rw [hmod, if_pos (by exact_mod_cast Nat.lt_succ_self s.counter)]
      exact ih _ hlt (by simp; omega)

/-- The `param_query` loop likewise terminates against the device model,
with RESPONSE_1 holding the requested parameter and the parameter table
unchanged on exit. -/
theorem param_query_go_device (loc : Nat) (hloc : loc < 64) :
    ∀ (n : Nat) (s : DeviceState), s.counter < 16 → 16 - s.counter ≤ n →
      ∃ s1, param_query_go deviceBus loc n s = some s1
        ∧ s1.counter = 0 ∧ s1.response1 = s.params loc
        ∧ s1.params = s.params := by
  intro n
  induction n with
  | zero => intro s h1 h2; omega
  | succ n ih =>
    intro s h1 h2
    simp only [param_query_go, param_query_iter_device loc hloc s]
    by_cases hc : s.counter = 15
    · rw [hc]
      norm_num
    · have hlt : s.counter + 1 < 16 := by omega
      have hmod : (s.counter + 1) % 16 = s.counter + 1 := Nat.mod_eq_of_lt hlt
      rw [hmod, if_pos (by exact_mod_cast Nat.lt_succ_self s.counter)]
      obtain ⟨s1, he, hc0, hr, hp⟩ := ih
        { counter := s.counter + 1, hostin0 := s.hostin0,
          response1 := s.params loc, params := s.params }
        hlt (by simp; omega)
      exact ⟨s1, he, hc0, hr, hp⟩

/-- C2: for every valid (location, value) pair, against the device model
that stores staged parameter writes in its parameter table, `param_set`
followed by `param_query` on the same location returns the value. -/
theorem param_roundtrip (loc val : Nat) (hloc : loc < 64) (hval : val < 256)
    (s : DeviceState) (hc : s.counter < 16) :
    ∃ s1 q, param_set deviceBus loc val 16 s = some s1
      ∧ param_query deviceBus loc 16 s1 = some q
      ∧ q.1 = (val : Int) := by
  obtain ⟨s1, he, hc0, hp⟩ := param_set_go_device loc val hloc 16 s hc (by omega)
  obtain ⟨s2, he2, hc2, hr2, hp2⟩ := param_query_go_device loc hloc 16 s1
    (by omega) (by omega)
  have hq : param_query deviceBus loc 16 s1 = some ((s2.response1 : Int), s2) := by
    unfold param_query
    rw [he2]
    rfl
  refine ⟨s1, ((s2.response1 : Int), s2), he, hq, ?_⟩
  rw [hr2, hp, Nat.mod_eq_of_lt hval]

/-- C2 witness: setting parameter 5 to 7 on a fresh device and querying
it back returns 7. -/
theorem param_roundtrip_witness :
    ∃ s1 q, param_set deviceBus 5 7 16 ⟨0, 0, 0, fun _ => 0⟩ = some s1
      ∧ param_query deviceBus 5 16 s1 = some q
      ∧ q.1 = (7 : Int) := by
  obtain ⟨s1, q, h1, h2, h3⟩ := param_roundtrip 5 7 (by decide) (by decide)
    ⟨0, 0, 0, fun _ => 0⟩ (by decide)
  exact ⟨s1, q, h1, h2, by exact_mod_cast h3⟩

end Si115X

namespace Utils

/-- C10: the instruction decoder maps `SET gain 5 0` to a SET
instruction with target `gain` and parameters 5 and 0, maps `MSR temp`
to an MSR instruction with target `temp` and both parameters at their
default 0, maps `foo bar` and the empty line to UNK, and tags a
malformed numeric field as UNK with the raw text preserved in
`target`. -/
theorem decode_instruction_contract :
    decode_instruction "SET gain 5 0"
      = { type := instruction_type.SET, target := "gain", p1 := 5, p2 := 0 }
    ∧ decode_instruction "MSR temp"
      = { type := instruction_type.MSR, target := "temp", p1 := 0, p2 := 0 }
    ∧ (decode_instruction "foo bar").type = instruction_type.UNK
    ∧ (decode_instruction "").type = instruction_type.UNK
    ∧ decode_instruction "SET gain 5x 0"
      = { type := instruction_type.UNK, target := "SET gain 5x 0", p1 := 0, p2 := 0 } := by
  refine ⟨?_, ?_, ?_, ?_, ?_⟩ <;> rfl

end Utils
